import Mathlib

/-!
Verification development for the cloudflared core specification.

The development shallowly embeds the code under `src/`:
  * `src/connection/rpc.go` — tunnel registration / reconnection RPC glue,
    the Linux ICMP proxy response listener and its ping-group pre-flight,
    and the h2mux flow-control and EOF tests,
  * `src/cmd/cloudflared/tunnel/subcommand_context.go` — credential lookup
    and tunnel name/UUID resolution.

The h2mux `MuxedStream` implementation itself (its `consumeReceiveWindow`,
`getChunk`, `Read`, `Write`, `Close`) is not part of `src/`; only its tests
(`TestFlowControlSingleStream`, `TestMuxedStreamEOF`) are.  Those operations
are therefore modelled from the specification's words, and the model is
validated below against the full trace asserted by the in-repo test
(`flowControl_model_matches_source_test`).

Machine integers of the source (`uint32` window counters) are modelled as
`Nat`: every value the flow-control discipline produces is bounded by
`receiveWindowMax`, far below `2^32`, so wrap-around is unreachable in
the modelled claims.  Fallible Go calls become `Except`/`Option` values;
Go interfaces (the credential manager, the UUID parser, the JSON
unmarshaller) become explicit function-valued parameters.
-/

/-! ## Muxed stream flow control (modelled from the spec, validated on the src test) -/

/-- Modelled from the spec: the `MuxedStream` record of §3 (the Go struct lives
in the h2mux package, outside `src/`).  Only the fields the flow-control and
EOF claims touch are kept: the three receive-window counters, the pending
`windowUpdate` credit, the send window, the write-buffer length, the read
buffer's contents and the closed latch. -/
structure MuxedStream where
  streamID : Nat
  receiveWindow : Nat
  receiveWindowCurrentMax : Nat
  receiveWindowMax : Nat
  windowUpdate : Nat
  sendWindow : Nat
  writeBufferLen : Nat
  readBufferData : List Nat
  closed : Bool
deriving Repr, DecidableEq

/-- Modelled from the spec: `consumeReceiveWindow(dataLen)` (§3 invariants and
§4.3; the Go method is outside `src/`).  On success `receiveWindow` drops by
`dataLen`; if it falls below `currentMax / 2` — read in exact arithmetic,
i.e. `2 * receiveWindow < currentMax`, the only reading under which both
scenario S1 of the spec and `TestFlowControlSingleStream` in
`src/connection/rpc.go` hold — `currentMax` doubles (capped at
`receiveWindowMax`) and `windowUpdate` is refreshed to
`currentMax − receiveWindow`.  The failure condition "dataLen would require
`currentMax` to exceed `receiveWindowMax`" is rendered as `dataLen`
exceeding the available `receiveWindow` (the credit currently outstanding
to the peer), the only reading under which the boundary assertions of
`TestFlowControlSingleStream` (lines 669–671 of `src/connection/rpc.go`)
hold; on failure the state is returned unchanged. -/
def MuxedStream.consumeReceiveWindow (s : MuxedStream) (dataLen : Nat) :
    Bool × MuxedStream :=
  if s.receiveWindow < dataLen then
    (false, s)
  else
    let rw := s.receiveWindow - dataLen
    if 2 * rw < s.receiveWindowCurrentMax then
      let cm := min (2 * s.receiveWindowCurrentMax) s.receiveWindowMax
      (true, { s with receiveWindow := rw, receiveWindowCurrentMax := cm,
                      windowUpdate := cm - rw })
    else
      (true, { s with receiveWindow := rw })

/-- Modelled from the spec: predicate rendering of "accommodating `dataLen`
would require `receiveWindowCurrentMax` to exceed `receiveWindowMax`" (§3):
the peer has only `receiveWindow` bytes of outstanding credit, so a larger
delivery overruns every grant the stream has made. -/
def MuxedStream.windowOverflow (s : MuxedStream) (dataLen : Nat) : Bool :=
  s.receiveWindow < dataLen

/-- Snapshot produced by `getChunk` (§4.3): the fields the claims observe. -/
structure StreamChunk where
  streamID : Nat
  dataLen : Nat
  windowUpdate : Nat
deriving Repr, DecidableEq

/-- Modelled from the spec: `getChunk()` (§4.3; the Go method is outside
`src/`).  Produces the next outbound snapshot carrying at most
`sendWindow` bytes of buffered write data plus the pending `windowUpdate`,
then atomically zeroes `windowUpdate` and advances `receiveWindow` by the
emitted credit; `sendWindow` drops by the data taken. -/
def MuxedStream.getChunk (s : MuxedStream) : StreamChunk × MuxedStream :=
  let dataLen := min s.sendWindow s.writeBufferLen
  ({ streamID := s.streamID, dataLen := dataLen, windowUpdate := s.windowUpdate },
   { s with sendWindow := s.sendWindow - dataLen,
            writeBufferLen := s.writeBufferLen - dataLen,
            receiveWindow := s.receiveWindow + s.windowUpdate,
            windowUpdate := 0 })

/-- The stream state `TestFlowControlSingleStream` in `src/connection/rpc.go`
starts from: every window field at 65535 except `receiveWindowMax = 262140`,
empty buffers, open. -/
def flowTestStream : MuxedStream :=
  { streamID := 1
    receiveWindow := 65535
    receiveWindowCurrentMax := 65535
    receiveWindowMax := 262140
    windowUpdate := 0
    sendWindow := 65535
    writeBufferLen := 0
    readBufferData := []
    closed := false }

/-- Validation of the spec model against the authoritative test in `src/`:
the model reproduces every assertion of `TestFlowControlSingleStream`
(`src/connection/rpc.go` lines 619–672): consume 32767 (no doubling),
chunk, consume 2 (doubling to 131070, update 98304), chunk, consume 65545
(doubling to 262140, update 196615), chunk, then consume 262141 fails
leaving the state unchanged, with `sendWindow` fixed at 65535 throughout. -/
theorem flowControl_model_matches_source_test :
    let r1 := flowTestStream.consumeReceiveWindow 32767
    let c1 := r1.2.getChunk
    let r2 := c1.2.consumeReceiveWindow 2
    let c2 := r2.2.getChunk
    let r3 := c2.2.consumeReceiveWindow 65545
    let c3 := r3.2.getChunk
    let r4 := c3.2.consumeReceiveWindow 262141
    r1.1 = true ∧ r1.2.receiveWindow = 32768 ∧
      r1.2.receiveWindowCurrentMax = 65535 ∧ r1.2.windowUpdate = 0 ∧
    c1.1.windowUpdate = 0 ∧ c1.2.receiveWindow = 32768 ∧
      c1.2.windowUpdate = 0 ∧ c1.2.sendWindow = 65535 ∧
    r2.1 = true ∧ r2.2.receiveWindow = 32766 ∧
      r2.2.receiveWindowCurrentMax = 131070 ∧ r2.2.windowUpdate = 98304 ∧
    c2.1.windowUpdate = 98304 ∧ c2.2.receiveWindow = 131070 ∧
      c2.2.windowUpdate = 0 ∧ c2.2.sendWindow = 65535 ∧
    r3.1 = true ∧ r3.2.receiveWindow = 65525 ∧
      r3.2.receiveWindowCurrentMax = 262140 ∧ r3.2.windowUpdate = 196615 ∧
    c3.1.windowUpdate = 196615 ∧ c3.2.receiveWindow = 262140 ∧
      c3.2.windowUpdate = 0 ∧ c3.2.sendWindow = 65535 ∧
    r4.1 = false ∧ r4.2.receiveWindow = 262140 ∧
      r4.2.receiveWindowCurrentMax = 262140 := by
  decide

/-- C1: starting from `receiveWindow = receiveWindowCurrentMax = 65535`,
`receiveWindowMax = 262140`, `consumeReceiveWindow 32768` returns true and
leaves `receiveWindow = 32767`, `receiveWindowCurrentMax = 131070`,
`windowUpdate = 98303`; the following `getChunk` then leaves
`receiveWindow = 131070`, `windowUpdate = 0` and `sendWindow = 65535`
unchanged. -/
theorem consumeReceiveWindow_windowDoubling_scenario :
    (flowTestStream.consumeReceiveWindow 32768).1 = true ∧
    (flowTestStream.consumeReceiveWindow 32768).2.receiveWindow = 32767 ∧
    (flowTestStream.consumeReceiveWindow 32768).2.receiveWindowCurrentMax
      = 131070 ∧
    (flowTestStream.consumeReceiveWindow 32768).2.windowUpdate = 98303 ∧
    (flowTestStream.consumeReceiveWindow 32768).2.getChunk.2.receiveWindow
      = 131070 ∧
    (flowTestStream.consumeReceiveWindow 32768).2.getChunk.2.windowUpdate = 0 ∧
    (flowTestStream.consumeReceiveWindow 32768).2.getChunk.2.sendWindow
      = 65535 := by
  decide

/-- C2: for every muxed-stream state and every byte count, the call returns
false exactly when the delivery overflows the window (the model's rendering
of "would require `currentMax` to exceed `receiveWindowMax`"), and in that
case the state — in particular `receiveWindow`, `receiveWindowCurrentMax`
and `windowUpdate` — is unchanged. -/
theorem consumeReceiveWindow_false_iff_overflow (s : MuxedStream) (dataLen : Nat) :
    ((s.consumeReceiveWindow dataLen).1 = false ↔ s.windowOverflow dataLen = true) ∧
    ((s.consumeReceiveWindow dataLen).1 = false →
      (s.consumeReceiveWindow dataLen).2 = s) := by
  simp only [MuxedStream.consumeReceiveWindow, MuxedStream.windowOverflow]
  split
  · next h => simp [h]
  · next h => split <;> simp [h]

/-- Concrete instance of `consumeReceiveWindow_false_iff_overflow`: delivering
65536 bytes into a 65535-byte window fails and leaves the stream unchanged. -/
theorem consumeReceiveWindow_false_iff_overflow_witness :
    (flowTestStream.consumeReceiveWindow 65536).2 = flowTestStream ∧
      flowTestStream.windowOverflow 65536 = true :=
  ⟨(consumeReceiveWindow_false_iff_overflow flowTestStream 65536).2 (by decide),
   by decide⟩

/-- Runs a sequence of `consumeReceiveWindow` calls; `none` when one of them
returns false. -/
def runConsumes (s : MuxedStream) : List Nat → Option MuxedStream
  | [] => some s
  | r :: rs =>
    let p := s.consumeReceiveWindow r
    if p.1 then runConsumes p.2 rs else none

/-- Flow-control state invariant: `receiveWindow ≤ currentMax ≤ max`, and the
pending `windowUpdate` is either zero or the exact credit that tops the
window back up to `currentMax` (staged while the window sat strictly below
half of `currentMax`).  A fresh stream (`windowUpdate = 0`,
`receiveWindow = currentMax ≤ max`) satisfies it. -/
def MuxedStream.FlowInv (s : MuxedStream) : Prop :=
  s.receiveWindow ≤ s.receiveWindowCurrentMax ∧
  s.receiveWindowCurrentMax ≤ s.receiveWindowMax ∧
  (s.windowUpdate = 0 ∨
    (2 * s.receiveWindow < s.receiveWindowCurrentMax ∧
     s.receiveWindow + s.windowUpdate = s.receiveWindowCurrentMax))

theorem consumeReceiveWindow_preserves_FlowInv {s : MuxedStream} {r : Nat}
    (hInv : s.FlowInv) (hok : (s.consumeReceiveWindow r).1 = true) :
    (s.consumeReceiveWindow r).2.FlowInv := by
  obtain ⟨h1, h2, h3⟩ := hInv
  by_cases hov : s.receiveWindow < r
  · simp [MuxedStream.consumeReceiveWindow, hov] at hok
  · by_cases hlt : 2 * (s.receiveWindow - r) < s.receiveWindowCurrentMax
    · simp only [MuxedStream.consumeReceiveWindow, if_neg hov, if_pos hlt,
        MuxedStream.FlowInv]
      rcases h3 with h0 | ⟨hhalf, heq⟩ <;> omega
    · simp only [MuxedStream.consumeReceiveWindow, if_neg hov, if_neg hlt,
        MuxedStream.FlowInv]
      rcases h3 with h0 | ⟨hhalf, heq⟩ <;> omega

theorem runConsumes_preserves_FlowInv {s : MuxedStream} {rs : List Nat}
    {t : MuxedStream} (hInv : s.FlowInv) (hrun : runConsumes s rs = some t) :
    t.FlowInv := by
  induction rs generalizing s with
  | nil =>
    simp only [runConsumes, Option.some.injEq] at hrun
    exact hrun ▸ hInv
  | cons r rs ih =>
    simp only [runConsumes] at hrun
    split at hrun
    · next hok =>
      exact ih (consumeReceiveWindow_preserves_FlowInv hInv hok) hrun
    · simp at hrun

/-- C3 counterexample: the claim demands that after any all-true consumption
sequence the next `getChunk` set `receiveWindow` to exactly
`receiveWindowCurrentMax`.  From the fresh test stream, the single call
`consumeReceiveWindow 1` succeeds (and 1 ≤ `receiveWindowMax`), stages no
`windowUpdate`, and the following `getChunk` leaves
`receiveWindow = 65534 ≠ 65535 = receiveWindowCurrentMax`. -/
theorem getChunk_exact_restore_counterexample :
    (runConsumes flowTestStream [1]).isSome = true ∧
    List.sum [1] ≤ flowTestStream.receiveWindowMax ∧
    ∀ t, runConsumes flowTestStream [1] = some t →
      (t.getChunk.2.windowUpdate = 0 ∧
       t.getChunk.2.receiveWindow ≠ t.receiveWindowCurrentMax) := by
  refine ⟨by decide, by decide, ?_⟩
  intro t ht
  have : t = (flowTestStream.consumeReceiveWindow 1).2 := by
    simpa [runConsumes, MuxedStream.consumeReceiveWindow, flowTestStream] using ht.symm
  subst this
  exact ⟨by decide, by decide⟩

/-- C3 (amended): for every sequence of `consumeReceiveWindow` calls that all
return true, started from a state satisfying the flow invariant with
`Σ Rᵢ ≤ receiveWindowMax`, after each call
`receiveWindow ≤ receiveWindowCurrentMax ≤ receiveWindowMax` holds, and the
next `getChunk` emits the pending `windowUpdate`, advances `receiveWindow`
by exactly that credit while resetting `windowUpdate` to 0 — which restores
`receiveWindow` to exactly `receiveWindowCurrentMax` whenever the pending
`windowUpdate` is nonzero. -/
theorem flowControl_sequence_invariants (s : MuxedStream) (hInv : s.FlowInv)
    (rs : List Nat) (_hsum : rs.sum ≤ s.receiveWindowMax)
    (s' : MuxedStream) (hrun : runConsumes s rs = some s') :
    (∀ pre t, runConsumes s pre = some t →
       t.receiveWindow ≤ t.receiveWindowCurrentMax ∧
       t.receiveWindowCurrentMax ≤ t.receiveWindowMax) ∧
    s'.getChunk.1.windowUpdate = s'.windowUpdate ∧
    s'.getChunk.2.receiveWindow = s'.receiveWindow + s'.windowUpdate ∧
    s'.getChunk.2.windowUpdate = 0 ∧
    (s'.windowUpdate ≠ 0 →
      s'.getChunk.2.receiveWindow = s'.receiveWindowCurrentMax) := by
  have hInv' := runConsumes_preserves_FlowInv hInv hrun
  refine ⟨?_, rfl, rfl, rfl, ?_⟩
  · intro pre t hpre
    have := runConsumes_preserves_FlowInv hInv hpre
    exact ⟨this.1, this.2.1⟩
  · intro hwu
    obtain ⟨-, -, h3⟩ := hInv'
    rcases h3 with h0 | ⟨-, heq⟩
    · exact absurd h0 hwu
    · simpa [MuxedStream.getChunk] using heq

/-- The state reached from `flowTestStream` by the all-true consumption
sequence [32767, 2]: window 32766, doubled current max 131070, staged
update 98304. -/
def flowSeqFinal : MuxedStream :=
  { streamID := 1
    receiveWindow := 32766
    receiveWindowCurrentMax := 131070
    receiveWindowMax := 262140
    windowUpdate := 98304
    sendWindow := 65535
    writeBufferLen := 0
    readBufferData := []
    closed := false }

/-- Concrete instance of `flowControl_sequence_invariants`: the sequence
[32767, 2] from the test stream (sum 32769 ≤ 262140) reaches
`flowSeqFinal`, the window bounds hold there, and its `getChunk` emits the
pending credit of 98304, restoring `receiveWindow` to the doubled
`receiveWindowCurrentMax`. -/
theorem flowControl_sequence_invariants_witness :
    runConsumes flowTestStream [32767, 2] = some flowSeqFinal ∧
    flowSeqFinal.receiveWindow ≤ flowSeqFinal.receiveWindowCurrentMax ∧
    flowSeqFinal.receiveWindowCurrentMax ≤ flowSeqFinal.receiveWindowMax ∧
    flowSeqFinal.getChunk.1.windowUpdate = flowSeqFinal.windowUpdate ∧
    flowSeqFinal.getChunk.2.receiveWindow
      = flowSeqFinal.receiveWindow + flowSeqFinal.windowUpdate ∧
    flowSeqFinal.getChunk.2.windowUpdate = 0 ∧
    flowSeqFinal.getChunk.2.receiveWindow
      = flowSeqFinal.receiveWindowCurrentMax := by
  have hrun : runConsumes flowTestStream [32767, 2] = some flowSeqFinal := by
    decide
  have h := flowControl_sequence_invariants flowTestStream
    (by refine ⟨?_, ?_, Or.inl ?_⟩ <;> decide) [32767, 2] (by decide)
    flowSeqFinal hrun
  exact ⟨hrun, (h.1 [32767, 2] flowSeqFinal hrun).1,
    (h.1 [32767, 2] flowSeqFinal hrun).2, h.2.1, h.2.2.1, h.2.2.2.1,
    h.2.2.2.2 (by decide)⟩

/-! ## Muxed stream EOF behaviour (modelled from the spec, §4.1/§4.3) -/

/-- Outcome of a `MuxedStream.Read`: delivered bytes, end-of-stream, or a
suspension (the Go call blocks until data or close). -/
inductive ReadOutcome where
  | bytes (data : List Nat)
  | endOfStream
  | blocked
deriving Repr, DecidableEq

/-- Modelled from the spec: `Close()` (§4.3; the Go method is outside `src/`).
Idempotent latch; after it, readers see end-of-stream once the buffer
drains and writes fail with end-of-stream. -/
def MuxedStream.close (s : MuxedStream) : MuxedStream :=
  { s with closed := true }

/-- Modelled from the spec: `Read` (§4.1/§4.3; the Go method is outside
`src/`).  Delegates to the shared read buffer: nonempty buffer delivers up
to `n` bytes; an empty buffer returns end-of-stream when the stream is
closed and suspends otherwise. -/
def MuxedStream.read (s : MuxedStream) (n : Nat) : ReadOutcome × MuxedStream :=
  match s.readBufferData with
  | [] => if s.closed then (.endOfStream, s) else (.blocked, s)
  | bs => (.bytes (bs.take n), { s with readBufferData := bs.drop n })

/-- Modelled from the spec: `Write` (§4.1/§4.3; the Go method is outside
`src/`).  Returns `(written, eofError)`: after close it fails with
`(0, end-of-stream)`, otherwise it queues the data into the write buffer. -/
def MuxedStream.write (s : MuxedStream) (data : List Nat) :
    (Nat × Bool) × MuxedStream :=
  if s.closed then
    ((0, true), s)
  else
    ((data.length, false), { s with writeBufferLen := s.writeBufferLen + data.length })

/-- C4: once `close` has been called, a read that finds the read buffer
drained returns `(0 bytes, endOfStream)`, and a subsequent write returns
`(0, endOfStream)`. -/
theorem closed_stream_read_write_eof (s : MuxedStream) (n : Nat)
    (data : List Nat) (hdrained : s.readBufferData = []) :
    ((s.close.read n).1 = .endOfStream) ∧
    (((s.close.read n).2.write data).1 = (0, true)) := by
  constructor
  · simp [MuxedStream.read, MuxedStream.close, hdrained]
  · simp [MuxedStream.read, MuxedStream.close, MuxedStream.write, hdrained]

/-- Concrete instance of `closed_stream_read_write_eof`: the stream of
`TestMuxedStreamEOF` (`src/connection/rpc.go` lines 674–696), closed, with
its empty read buffer, under a 1-byte read then a 1-byte write. -/
theorem closed_stream_read_write_eof_witness :
    ((flowTestStream.close.read 1).1 = .endOfStream) ∧
    (((flowTestStream.close.read 1).2.write [1]).1 = (0, true)) :=
  closed_stream_read_write_eof flowTestStream 1 [1] (by decide)

/-! ## Tunnel registration RPC (`src/connection/rpc.go`) -/

/-- Error value surfaced by a registration RPC.  `msg` models Go's
`err.Error()` string; `permanent` models `TunnelRegistrationError.IsPermanent()`
(unused for the plain RPC error of `RegisterConnection`). -/
structure RegistrationError where
  msg : String
  permanent : Bool
deriving Repr, DecidableEq

/-- The sentinel string compared against `err.Error()` in
`registerConnection` and `processRegisterTunnelError`.  The constant is
declared outside `src/` (h2mux package); only equality with it matters
here. -/
def DuplicateConnectionError : String := "EDUPCONN"

/-- `TunnelRegistration` response fields used by `src/connection/rpc.go`:
`Err` models the result of `DeserializeError()` (`none` = RPC success). -/
structure TunnelRegistration where
  Err : Option RegistrationError
  Url : String
  LogLines : List String
  TunnelID : String
  EventDigest : List Nat
  ConnDigest : List Nat

/-- Errors returned by the registration paths of `src/connection/rpc.go`. -/
inductive TunnelConnError where
  | streamError (msg : String)
  | credentialError (msg : String)
  | duplicateConnection
  | serverRegisterTunnel (cause : RegistrationError) (permanent : Bool)
  | serverRegistration (msg : String)
  | trialHostnameError (msg : String)
deriving Repr, DecidableEq

/-- `errDuplicationConnection`, the duplicate-connection error value returned
to callers (`src/connection/rpc.go` lines 107 and 190). -/
def errDuplicationConnection : TunnelConnError := .duplicateConnection

/-- Observer metric counters touched by the registration code: keyed
`regFail{reason, name}` and `regSuccess{name}` counters, the
`userHostnamesCounts{url}` counter and the per-connection `tunnelsHA` map. -/
structure TunnelMetrics where
  regFail : String → String → Nat
  regSuccess : String → Nat
  userHostnamesCounts : String → Nat
  tunnelsHA : Nat → String

/-- `observer.metrics.regFail.WithLabelValues(reason, name).Inc()`. -/
def incRegFail (reason name : String) (m : TunnelMetrics) : TunnelMetrics :=
  { m with regFail := fun r n =>
      if r = reason ∧ n = name then m.regFail r n + 1 else m.regFail r n }

/-- `observer.metrics.regSuccess.WithLabelValues(name).Inc()`. -/
def incRegSuccess (name : String) (m : TunnelMetrics) : TunnelMetrics :=
  { m with regSuccess := fun n =>
      if n = name then m.regSuccess n + 1 else m.regSuccess n }

/-- `observer.metrics.userHostnamesCounts.WithLabelValues(url).Inc()`. -/
def incUserHostnames (url : String) (m : TunnelMetrics) : TunnelMetrics :=
  { m with userHostnamesCounts := fun u =>
      if u = url then m.userHostnamesCounts u + 1 else m.userHostnamesCounts u }

/-- State of a `CredentialManager` implementation behind the interface of
`src/connection/rpc.go` lines 149–155: the three getters may fail
independently (they are interface calls), and the two `Set…` methods write
the per-connection stores. -/
structure CredentialManagerState where
  tokenRes : Except String (List Nat)
  eventDigestRes : Nat → Except String (List Nat)
  connDigestRes : Nat → Except String (List Nat)
  storedEventDigest : Nat → List Nat
  storedConnDigest : Nat → List Nat

/-- `SetEventDigest(connID, digest)`. -/
def setEventDigest (connID : Nat) (digest : List Nat)
    (cm : CredentialManagerState) : CredentialManagerState :=
  { cm with storedEventDigest := fun j =>
      if j = connID then digest else cm.storedEventDigest j }

/-- `SetConnDigest(connID, digest)`. -/
def setConnDigest (connID : Nat) (digest : List Nat)
    (cm : CredentialManagerState) : CredentialManagerState :=
  { cm with storedConnDigest := fun j =>
      if j = connID then digest else cm.storedConnDigest j }

/-- `ClassicTunnelConfig` (`src/connection/rpc.go` lines 320–329):
`IsTrialZone()` is `Hostname == ""`. -/
structure ClassicTunnelConfig where
  Hostname : String
deriving Repr, DecidableEq

def ClassicTunnelConfig.IsTrialZone (c : ClassicTunnelConfig) : Bool :=
  c.Hostname = ""

/-- `processRegisterTunnelError` (`src/connection/rpc.go` lines 187–197):
on the duplicate-connection message, bump `regFail{dup_edge_conn, name}` and
return `errDuplicationConnection`; otherwise bump
`regFail{server_error, name}` and return a `serverRegisterTunnelError`
carrying the cause and its permanence. -/
def processRegisterTunnelError (err : RegistrationError) (name : String)
    (m : TunnelMetrics) : TunnelConnError × TunnelMetrics :=
  if err.msg = DuplicateConnectionError then
    (errDuplicationConnection, incRegFail "dup_edge_conn" name m)
  else
    (.serverRegisterTunnel err err.permanent, incRegFail "server_error" name m)

/-- Result fields of a successful `RegisterConnection` RPC. -/
structure ConnDetails where
  Location : String
  UUID : String
deriving Repr, DecidableEq

/-- `registerConnection` (`src/connection/rpc.go` lines 89–119).  The RPC
outcome is the `rpcResult` parameter; on the duplicate-connection message,
bump `regFail{dup_edge_conn, registerConnection}` and return
`errDuplicationConnection`; on any other error bump
`regFail{server_error, registerConnection}` and return the wrapped server
registration error; on success bump `regSuccess{registerConnection}`. -/
def registerConnection (rpcResult : Except RegistrationError ConnDetails)
    (m : TunnelMetrics) : Except TunnelConnError ConnDetails × TunnelMetrics :=
  match rpcResult with
  | .error err =>
    if err.msg = DuplicateConnectionError then
      (.error errDuplicationConnection,
       incRegFail "dup_edge_conn" "registerConnection" m)
    else
      (.error (.serverRegistration err.msg),
       incRegFail "server_error" "registerConnection" m)
  | .ok conn => (.ok conn, incRegSuccess "registerConnection" m)

/-- `processRegistrationSuccess` (`src/connection/rpc.go` lines 157–185):
records the tunnel ID in `tunnelsHA` when nonempty; for a trial zone a
failing `logTrialHostname` (the `trialLog` parameter) aborts before the
conn digest is stored; otherwise stores `registration.ConnDigest`, bumps
`userHostnamesCounts{Url}` and `regSuccess{name}`. -/
def processRegistrationSuccess (registration : TunnelRegistration)
    (name : String) (connIndex : Nat) (cm : CredentialManagerState)
    (classicTunnel : ClassicTunnelConfig) (trialLog : Except String Unit)
    (m : TunnelMetrics) :
    Except TunnelConnError Unit × CredentialManagerState × TunnelMetrics :=
  let m1 :=
    if registration.TunnelID ≠ "" then
      { m with tunnelsHA := fun j =>
          if j = connIndex then registration.TunnelID else m.tunnelsHA j }
    else m
  match (if classicTunnel.IsTrialZone then trialLog else .ok ()) with
  | .error e => (.error (.trialHostnameError e), cm, m1)
  | .ok _ =>
    let cm1 := setConnDigest connIndex registration.ConnDigest cm
    let m2 := incUserHostnames registration.Url m1
    (.ok (), cm1, incRegSuccess name m2)

/-- `registerTunnel` (`src/connection/rpc.go` lines 121–147).  Stream
creation and the RPC outcome are parameters; an RPC failure goes through
`processRegisterTunnelError` with name `register`; on success the event
digest is stored first, then `processRegistrationSuccess` runs. -/
def registerTunnel (connIndex : Nat) (stream : Except String Unit)
    (registration : TunnelRegistration) (classicTunnel : ClassicTunnelConfig)
    (trialLog : Except String Unit) (cm : CredentialManagerState)
    (m : TunnelMetrics) :
    Except TunnelConnError Unit × CredentialManagerState × TunnelMetrics :=
  match stream with
  | .error e => (.error (.streamError e), cm, m)
  | .ok _ =>
    match registration.Err with
    | some rerr =>
      let p := processRegisterTunnelError rerr "register" m
      (.error p.1, cm, p.2)
    | none =>
      let cm1 := setEventDigest connIndex registration.EventDigest cm
      processRegistrationSuccess registration "register" connIndex cm1
        classicTunnel trialLog m

/-- `reconnectTunnel` (`src/connection/rpc.go` lines 199–235).  Reads the
reconnect token and both digests from the credential manager (each read may
fail), opens the stream, runs the RPC; an RPC failure goes through
`processRegisterTunnelError` with name `reconnect`; on success only
`processRegistrationSuccess` runs — no `SetEventDigest` call exists on this
path. -/
def reconnectTunnel (connIndex : Nat) (stream : Except String Unit)
    (registration : TunnelRegistration) (classicTunnel : ClassicTunnelConfig)
    (trialLog : Except String Unit) (cm : CredentialManagerState)
    (m : TunnelMetrics) :
    Except TunnelConnError Unit × CredentialManagerState × TunnelMetrics :=
  match cm.tokenRes with
  | .error e => (.error (.credentialError e), cm, m)
  | .ok _ =>
    match cm.eventDigestRes connIndex with
    | .error e => (.error (.credentialError e), cm, m)
    | .ok _ =>
      match cm.connDigestRes connIndex with
      | .error e => (.error (.credentialError e), cm, m)
      | .ok _ =>
        match stream with
        | .error e => (.error (.streamError e), cm, m)
        | .ok _ =>
          match registration.Err with
          | some rerr =>
            let p := processRegisterTunnelError rerr "reconnect" m
            (.error p.1, cm, p.2)
          | none =>
            processRegistrationSuccess registration "reconnect" connIndex cm
              classicTunnel trialLog m

theorem processRegistrationSuccess_storedEventDigest
    (registration : TunnelRegistration) (name : String) (connIndex : Nat)
    (cm : CredentialManagerState) (classicTunnel : ClassicTunnelConfig)
    (trialLog : Except String Unit) (m : TunnelMetrics) :
    (processRegistrationSuccess registration name connIndex cm classicTunnel
        trialLog m).2.1.storedEventDigest = cm.storedEventDigest := by
  unfold processRegistrationSuccess
  rcases htr : (if classicTunnel.IsTrialZone then trialLog else Except.ok ()) with e | u <;>
    simp [htr, setConnDigest]

theorem processRegistrationSuccess_ok_connDigest
    {registration : TunnelRegistration} {name : String} {connIndex : Nat}
    {cm : CredentialManagerState} {classicTunnel : ClassicTunnelConfig}
    {trialLog : Except String Unit} {m : TunnelMetrics}
    (h : (processRegistrationSuccess registration name connIndex cm classicTunnel
            trialLog m).1 = .ok ()) :
    (processRegistrationSuccess registration name connIndex cm classicTunnel
        trialLog m).2.1.storedConnDigest connIndex = registration.ConnDigest := by
  unfold processRegistrationSuccess at h ⊢
  rcases htr : (if classicTunnel.IsTrialZone then trialLog else Except.ok ()) with e | u
  · simp [htr] at h
  · simp [htr, setConnDigest]

/-- C5 counterexample: a fully successful `reconnectTunnel` (all credential
reads succeed, the stream opens, the RPC succeeds with
`EventDigest = [7]`, `ConnDigest = [9]`) stores the returned conn digest
but leaves the stored event digest at its old value `[0] ≠ [7]`: the
reconnection path never calls `SetEventDigest`
(`src/connection/rpc.go` lines 199–235). -/
theorem reconnectTunnel_eventDigest_counterexample :
    let cm : CredentialManagerState :=
      { tokenRes := .ok [5]
        eventDigestRes := fun _ => .ok [0]
        connDigestRes := fun _ => .ok [0]
        storedEventDigest := fun _ => [0]
        storedConnDigest := fun _ => [0] }
    let m : TunnelMetrics :=
      { regFail := fun _ _ => 0
        regSuccess := fun _ => 0
        userHostnamesCounts := fun _ => 0
        tunnelsHA := fun _ => "" }
    let registration : TunnelRegistration :=
      { Err := none, Url := "u", LogLines := [], TunnelID := ""
        EventDigest := [7], ConnDigest := [9] }
    let r := reconnectTunnel 0 (.ok ()) registration { Hostname := "h" }
      (.ok ()) cm m
    r.1 = .ok () ∧
    r.2.1.storedConnDigest 0 = registration.ConnDigest ∧
    r.2.1.storedEventDigest 0 ≠ registration.EventDigest := by
  refine ⟨by rfl, by rfl, by decide⟩

/-- C5 (amended): a successful `registerTunnel` on connection `connIndex`
stores both the returned event digest and the returned conn digest; a
successful `reconnectTunnel` stores only the returned conn digest and
leaves the stored event digests entirely unchanged. -/
theorem registration_digest_update (connIndex : Nat)
    (stream : Except String Unit) (registration : TunnelRegistration)
    (classicTunnel : ClassicTunnelConfig) (trialLog : Except String Unit)
    (cm : CredentialManagerState) (m : TunnelMetrics) :
    ((registerTunnel connIndex stream registration classicTunnel trialLog
        cm m).1 = .ok () →
      (registerTunnel connIndex stream registration classicTunnel trialLog
          cm m).2.1.storedEventDigest connIndex = registration.EventDigest ∧
      (registerTunnel connIndex stream registration classicTunnel trialLog
          cm m).2.1.storedConnDigest connIndex = registration.ConnDigest) ∧
    ((reconnectTunnel connIndex stream registration classicTunnel trialLog
        cm m).1 = .ok () →
      (reconnectTunnel connIndex stream registration classicTunnel trialLog
          cm m).2.1.storedConnDigest connIndex = registration.ConnDigest ∧
      (reconnectTunnel connIndex stream registration classicTunnel trialLog
          cm m).2.1.storedEventDigest = cm.storedEventDigest) := by
  constructor
  · intro h
    rcases hs : stream with e | u
    · simp only [registerTunnel.eq_def, hs] at h
      simp at h
    · rcases hr : registration.Err with _ | rerr
      · simp only [registerTunnel.eq_def, hs, hr] at h ⊢
        refine ⟨?_, processRegistrationSuccess_ok_connDigest h⟩
        rw [processRegistrationSuccess_storedEventDigest]
        simp [setEventDigest]
      · simp only [registerTunnel.eq_def, hs, hr] at h
        simp at h
  · intro h
    rcases ht : cm.tokenRes with e | tk
    · simp only [reconnectTunnel.eq_def, ht] at h
      simp at h
    · rcases he : cm.eventDigestRes connIndex with e | ed
      · simp only [reconnectTunnel.eq_def, ht, he] at h
        simp at h
      · rcases hc : cm.connDigestRes connIndex with e | cd
        · simp only [reconnectTunnel.eq_def, ht, he, hc] at h
          simp at h
        · rcases hs : stream with e | u
          · simp only [reconnectTunnel.eq_def, ht, he, hc, hs] at h
            simp at h
          · rcases hr : registration.Err with _ | rerr
            · simp only [reconnectTunnel.eq_def, ht, he, hc, hs, hr] at h ⊢
              exact ⟨processRegistrationSuccess_ok_connDigest h,
                processRegistrationSuccess_storedEventDigest _ _ _ _ _ _ _⟩
            · simp only [reconnectTunnel.eq_def, ht, he, hc, hs, hr] at h
              simp at h

/-- Concrete instance of `registration_digest_update`: a successful
`registerTunnel` with `EventDigest = [7]`, `ConnDigest = [9]` stores both
digests for connection 0. -/
theorem registration_digest_update_witness :
    let cm : CredentialManagerState :=
      { tokenRes := .ok [5]
        eventDigestRes := fun _ => .ok [0]
        connDigestRes := fun _ => .ok [0]
        storedEventDigest := fun _ => [0]
        storedConnDigest := fun _ => [0] }
    let m : TunnelMetrics :=
      { regFail := fun _ _ => 0
        regSuccess := fun _ => 0
        userHostnamesCounts := fun _ => 0
        tunnelsHA := fun _ => "" }
    let registration : TunnelRegistration :=
      { Err := none, Url := "u", LogLines := [], TunnelID := ""
        EventDigest := [7], ConnDigest := [9] }
    (registerTunnel 0 (.ok ()) registration { Hostname := "h" } (.ok ())
        cm m).2.1.storedEventDigest 0 = registration.EventDigest ∧
    (registerTunnel 0 (.ok ()) registration { Hostname := "h" } (.ok ())
        cm m).2.1.storedConnDigest 0 = registration.ConnDigest :=
  (registration_digest_update 0 (.ok ())
    { Err := none, Url := "u", LogLines := [], TunnelID := ""
      EventDigest := [7], ConnDigest := [9] }
    { Hostname := "h" } (.ok ())
    { tokenRes := .ok [5]
      eventDigestRes := fun _ => .ok [0]
      connDigestRes := fun _ => .ok [0]
      storedEventDigest := fun _ => [0]
      storedConnDigest := fun _ => [0] }
    { regFail := fun _ _ => 0
      regSuccess := fun _ => 0
      userHostnamesCounts := fun _ => 0
      tunnelsHA := fun _ => "" }).1 (by rfl)

/-- C6: whenever a registration RPC fails, exactly one failure counter cell
is bumped and the matching error value is returned: a duplicate-connection
failure bumps `regFail{dup_edge_conn, name}` by one (every other cell
untouched) and returns `errDuplicationConnection`, both through
`processRegisterTunnelError` (the shared path of `RegisterTunnel` and
`ReconnectTunnel`) and through `registerConnection`; any other failure
bumps `regFail{server_error, name}` by one instead and returns the wrapped
server error. -/
theorem registration_failure_metrics (err : RegistrationError) (name : String)
    (m : TunnelMetrics) :
    (err.msg = DuplicateConnectionError →
      (processRegisterTunnelError err name m).1 = errDuplicationConnection ∧
      (processRegisterTunnelError err name m).2.regFail "dup_edge_conn" name
        = m.regFail "dup_edge_conn" name + 1 ∧
      (∀ r n, ¬(r = "dup_edge_conn" ∧ n = name) →
        (processRegisterTunnelError err name m).2.regFail r n = m.regFail r n) ∧
      (registerConnection (.error err) m).1 = .error errDuplicationConnection ∧
      (registerConnection (.error err) m).2.regFail "dup_edge_conn"
          "registerConnection"
        = m.regFail "dup_edge_conn" "registerConnection" + 1 ∧
      (∀ r n, ¬(r = "dup_edge_conn" ∧ n = "registerConnection") →
        (registerConnection (.error err) m).2.regFail r n = m.regFail r n)) ∧
    (err.msg ≠ DuplicateConnectionError →
      (processRegisterTunnelError err name m).1
        = .serverRegisterTunnel err err.permanent ∧
      (processRegisterTunnelError err name m).2.regFail "server_error" name
        = m.regFail "server_error" name + 1 ∧
      (∀ r n, ¬(r = "server_error" ∧ n = name) →
        (processRegisterTunnelError err name m).2.regFail r n = m.regFail r n) ∧
      (registerConnection (.error err) m).1
        = .error (.serverRegistration err.msg) ∧
      (registerConnection (.error err) m).2.regFail "server_error"
          "registerConnection"
        = m.regFail "server_error" "registerConnection" + 1 ∧
      (∀ r n, ¬(r = "server_error" ∧ n = "registerConnection") →
        (registerConnection (.error err) m).2.regFail r n = m.regFail r n)) := by
  constructor
  · intro hdup
    have hp : processRegisterTunnelError err name m
        = (errDuplicationConnection, incRegFail "dup_edge_conn" name m) := by
      simp [processRegisterTunnelError, hdup]
    have hc : registerConnection (.error err) m
        = (.error errDuplicationConnection,
           incRegFail "dup_edge_conn" "registerConnection" m) := by
      simp [registerConnection, hdup]
    rw [hp, hc]
    refine ⟨rfl, by simp [incRegFail], ?_, rfl, by simp [incRegFail], ?_⟩ <;>
      · intro r n hne
        simp only [incRegFail]
        rw [if_neg hne]
  · intro hdup
    have hp : processRegisterTunnelError err name m
        = (.serverRegisterTunnel err err.permanent,
           incRegFail "server_error" name m) := by
      simp [processRegisterTunnelError, hdup]
    have hc : registerConnection (.error err) m
        = (.error (.serverRegistration err.msg),
           incRegFail "server_error" "registerConnection" m) := by
      simp [registerConnection, hdup]
    rw [hp, hc]
    refine ⟨rfl, by simp [incRegFail], ?_, rfl, by simp [incRegFail], ?_⟩ <;>
      · intro r n hne
        simp only [incRegFail]
        rw [if_neg hne]

/-- Concrete instance of `registration_failure_metrics`: a failure carrying
the duplicate-connection message bumps the `dup_edge_conn` counter from 0
to 1, leaves the `server_error` cell at 0 and yields
`errDuplicationConnection`. -/
theorem registration_failure_metrics_witness :
    let err : RegistrationError := { msg := "EDUPCONN", permanent := false }
    let m : TunnelMetrics :=
      { regFail := fun _ _ => 0
        regSuccess := fun _ => 0
        userHostnamesCounts := fun _ => 0
        tunnelsHA := fun _ => "" }
    (processRegisterTunnelError err "register" m).1 = errDuplicationConnection ∧
    (processRegisterTunnelError err "register" m).2.regFail "dup_edge_conn"
        "register" = 1 ∧
    (processRegisterTunnelError err "register" m).2.regFail "server_error"
        "register" = 0 := by
  intro err m
  have h := (registration_failure_metrics err "register" m).1 (by rfl)
  exact ⟨h.1, h.2.1, h.2.2.1 "server_error" "register" (by simp)⟩

/-! ## ICMP proxy response listener (`src/connection/rpc.go`, linux ingress) -/

/-- Outcome of one socket-read turn of `handleResponse`: the read itself
fails, the reply fails to parse, the message is not an echo reply, the
rewritten reply cannot be forwarded to the client, or the reply is
delivered. -/
inductive ReadEvent where
  | readErr
  | parseErr
  | notEchoReply
  | forwardErr
  | delivered
deriving Repr, DecidableEq

/-- `handleResponse` (`src/connection/rpc.go` lines 557–594), abstracted over
the outcome of its I/O: returns `(retryableErr, hasErr)`.  A failing
`ReadFrom` is `(false, err)`; a parse failure, a non-echo-reply message and
a failing `returnToSrc` are `(true, err)`; a delivered reply is
`(true, nil)`. -/
def handleResponse : ReadEvent → Bool × Bool
  | .readErr => (false, true)
  | .parseErr => (true, true)
  | .notEchoReply => (true, true)
  | .forwardErr => (true, true)
  | .delivered => (true, false)

/-- Result of driving `listenResponse` through a finite schedule of read
outcomes: either the loop returned (exited) or it is still iterating. -/
inductive ListenOutcome where
  | exited
  | running
deriving Repr, DecidableEq

/-- `listenResponse` (`src/connection/rpc.go` lines 547–555) driven by a
finite schedule of read outcomes: loop forever, returning only when
`handleResponse` reports an error that is not retryable. -/
def listenResponse : List ReadEvent → ListenOutcome
  | [] => .running
  | ev :: rest =>
    let p := handleResponse ev
    if p.2 ∧ ¬p.1 then .exited else listenResponse rest

/-- The listener goroutine spawned in `Request`
(`src/connection/rpc.go` lines 523–532): it runs `listenResponse` with
`defer ip.srcFunnelTracker.Unregister(funnelID, icmpFlow)`, so the funnel
stays registered exactly until the listener returns. -/
def listenerFunnelRegistered (events : List ReadEvent) : Bool :=
  match listenResponse events with
  | .exited => false
  | .running => true

/-- C7: the response-listener loop exits exactly when some socket read
fails; parse failures, non-echo-reply messages and forward failures are
retryable (the loop continues past them); and the funnel is unregistered
from the tracker exactly when the listener exits. -/
theorem listenResponse_exit_unregister (events : List ReadEvent) :
    (listenResponse events = .exited ↔ .readErr ∈ events) ∧
    (∀ ev, ev ≠ .readErr →
      listenResponse (ev :: events) = listenResponse events) ∧
    (listenerFunnelRegistered events = false ↔ listenResponse events = .exited) := by
  refine ⟨?_, ?_, ?_⟩
  · induction events with
    | nil => simp [listenResponse]
    | cons ev rest ih =>
      cases ev <;>
        simp [listenResponse, handleResponse, ih]
  · intro ev hne
    cases ev <;> simp [listenResponse, handleResponse] at hne ⊢
  · unfold listenerFunnelRegistered
    cases h : listenResponse events <;> simp [h]

/-- Concrete instance of `listenResponse_exit_unregister`: a schedule with a
parse failure, a dropped non-echo message, a forward failure and a
delivered reply keeps the loop running and the funnel registered; with a
final read failure the loop exits and the funnel is unregistered. -/
theorem listenResponse_exit_unregister_witness :
    listenResponse [.parseErr, .notEchoReply, .forwardErr, .delivered]
      = .running ∧
    listenerFunnelRegistered
      [.parseErr, .notEchoReply, .forwardErr, .delivered] = true ∧
    listenResponse [.parseErr, .notEchoReply, .forwardErr, .delivered,
      .readErr] = .exited ∧
    listenerFunnelRegistered [.parseErr, .notEchoReply, .forwardErr,
      .delivered, .readErr] = false := by
  have h1 := (listenResponse_exit_unregister
    [.parseErr, .notEchoReply, .forwardErr, .delivered]).1
  have h2 := (listenResponse_exit_unregister
    [.parseErr, .notEchoReply, .forwardErr, .delivered, .readErr]).1
  have h3 := (listenResponse_exit_unregister
    [.parseErr, .notEchoReply, .forwardErr, .delivered]).2.2
  have h4 := (listenResponse_exit_unregister
    [.parseErr, .notEchoReply, .forwardErr, .delivered, .readErr]).2.2
  refine ⟨?_, ?_, ?_, ?_⟩
  · cases hl : listenResponse [.parseErr, .notEchoReply, .forwardErr,
      .delivered]
    · exact absurd (h1.mp hl) (by decide)
    · rfl
  · cases hr : listenerFunnelRegistered [.parseErr, .notEchoReply,
      .forwardErr, .delivered]
    · exact absurd (h1.mp (h3.mp hr)) (by decide)
    · rfl
  · exact h2.mpr (by decide)
  · exact h4.mpr (h2.mpr (by decide))

/-! ## ICMP proxy pre-flight (`src/connection/rpc.go`, linux ingress) -/

/-- Accumulating helper for `digitRuns`: `acc` holds the digits of the run
in progress, reversed. -/
def digitRunsAux : List Char → List Char → List (List Char)
  | [], acc => if acc.isEmpty then [] else [acc.reverse]
  | c :: cs, acc =>
    if c.isDigit then digitRunsAux cs (c :: acc)
    else if acc.isEmpty then digitRunsAux cs []
    else acc.reverse :: digitRunsAux cs []

/-- The maximal digit runs of a character sequence, in order: the matches of
the regex `\d+` (`findGroupIDRegex` in `src/connection/rpc.go` line 399). -/
def digitRuns (s : List Char) : List (List Char) :=
  digitRunsAux s []

/-- Numeric value of a digit run. -/
def digitsToNat (ds : List Char) : Nat :=
  ds.foldl (fun a c => a * 10 + (c.toNat - 48)) 0

/-- `strconv.ParseInt(s, 10, 32)` on a digit run: fails when the value does
not fit in a signed 32-bit integer. -/
def parsePingGroupInt (ds : List Char) : Except String Int :=
  if digitsToNat ds ≤ 2147483647 then .ok (Int.ofNat (digitsToNat ds))
  else .error "value out of range"

/-- `checkInPingGroup` (`src/connection/rpc.go` lines 441–464), abstracted
over the result of reading `/proc/sys/net/ipv4/ping_group_range`
(`fileRes`) and over `os.Getgid()` (`groupID`).  Extracts the first two
digit runs; with fewer than two, fails; parses them as 32-bit integers
(each parse failure is an error); succeeds exactly when
`groupMin ≤ groupID ≤ groupMax`. -/
def checkInPingGroup (fileRes : Except String (List Char)) (groupID : Int) :
    Option String :=
  match fileRes with
  | .error e => some e
  | .ok content =>
    match (digitRuns content).take 2 with
    | [mnRun, mxRun] =>
      match parsePingGroupInt mnRun with
      | .error _ => some "failed to determine minimum ping group ID"
      | .ok groupMin =>
        match parsePingGroupInt mxRun with
        | .error _ => some "failed to determine minimum ping group ID"
        | .ok groupMax =>
          if groupID < groupMin ∨ groupID > groupMax then
            some "Group ID is not between ping group min and max"
          else none
    | _ => some "did not find group range in ping_group_range"

/-- `testPermission` (`src/connection/rpc.go` lines 423–439): for an IPv4
listen address, `checkInPingGroup` must pass first; then a probe ICMP
socket must open (its outcome is the `socketOpen` parameter, the
platform-specific `newICMPConn` being outside `src/`). -/
def testPermission (listenIPIs4 : Bool) (fileRes : Except String (List Char))
    (groupID : Int) (socketOpen : Except String Unit) : Option String :=
  if listenIPIs4 then
    match checkInPingGroup fileRes groupID with
    | some e => some e
    | none =>
      match socketOpen with
      | .error e => some e
      | .ok _ => none
  else
    match socketOpen with
    | .error e => some e
    | .ok _ => none

/-- The proxy record built by `newICMPProxy`: the fields determined by its
arguments. -/
structure ICMPProxyModel where
  listenIPIs4 : Bool
  ipv6Zone : String
deriving Repr, DecidableEq

/-- `newICMPProxy` (`src/connection/rpc.go` lines 410–421): pre-flights via
`testPermission` and returns the error — and no proxy — when it fails. -/
def newICMPProxy (listenIPIs4 : Bool) (zone : String)
    (fileRes : Except String (List Char)) (groupID : Int)
    (socketOpen : Except String Unit) : Except String ICMPProxyModel :=
  match testPermission listenIPIs4 fileRes groupID socketOpen with
  | some e => .error e
  | none => .ok { listenIPIs4 := listenIPIs4, ipv6Zone := zone }

/-- C8: `newICMPProxy` returns an error and no proxy whenever the pre-flight
`testPermission` fails, and for an IPv4 listen address a `checkInPingGroup`
failure is such a failure; moreover, when the ping-group file is readable
and its first two integers parse as `groupMin` and `groupMax`,
`checkInPingGroup` succeeds if and only if
`groupMin ≤ groupID ≤ groupMax`. -/
theorem newICMPProxy_preflight_pingGroup :
    (∀ (is4 : Bool) (zone : String) (fileRes : Except String (List Char))
       (groupID : Int) (socketOpen : Except String Unit) (e : String),
       testPermission is4 fileRes groupID socketOpen = some e →
       newICMPProxy is4 zone fileRes groupID socketOpen = .error e) ∧
    (∀ (fileRes : Except String (List Char)) (groupID : Int)
       (socketOpen : Except String Unit) (e : String),
       checkInPingGroup fileRes groupID = some e →
       testPermission true fileRes groupID socketOpen = some e) ∧
    (∀ (content : List Char) (groupID : Int) (mnRun mxRun : List Char)
       (groupMin groupMax : Int),
       (digitRuns content).take 2 = [mnRun, mxRun] →
       parsePingGroupInt mnRun = .ok groupMin →
       parsePingGroupInt mxRun = .ok groupMax →
       (checkInPingGroup (.ok content) groupID = none ↔
         groupMin ≤ groupID ∧ groupID ≤ groupMax)) := by
  refine ⟨?_, ?_, ?_⟩
  · intro is4 zone fileRes groupID socketOpen e h
    simp [newICMPProxy, h]
  · intro fileRes groupID socketOpen e h
    simp [testPermission, h]
  · intro content groupID mnRun mxRun groupMin groupMax htake hmn hmx
    simp only [checkInPingGroup, htake, hmn, hmx]
    constructor
    · intro h
      by_cases hc : groupID < groupMin ∨ groupID > groupMax
      · rw [if_pos hc] at h
        exact absurd h (by simp)
      · omega
    · intro h
      rw [if_neg (by omega)]

/-- Concrete instance of `newICMPProxy_preflight_pingGroup`: the file content
`999 59999` (the documented example) parses to range [999, 59999]; group ID
1000 is accepted, and with group ID 0 the pre-flight error propagates out
of `newICMPProxy`. -/
theorem newICMPProxy_preflight_pingGroup_witness :
    (checkInPingGroup (.ok ("999 59999".toList)) 1000 = none ∧
      (999 : Int) ≤ 1000 ∧ (1000 : Int) ≤ 59999) ∧
    newICMPProxy true "" (.ok ("999 59999".toList)) 0 (.ok ())
      = .error "Group ID is not between ping group min and max" := by
  constructor
  · refine ⟨?_, by decide, by decide⟩
    exact ((newICMPProxy_preflight_pingGroup.2.2 ("999 59999".toList) 1000
      (['9', '9', '9']) (['5', '9', '9', '9', '9']) 999 59999
      (by decide) (by rfl) (by rfl)).mpr ⟨by decide, by decide⟩)
  · exact newICMPProxy_preflight_pingGroup.1 true "" (.ok ("999 59999".toList))
      0 (.ok ())
      "Group ID is not between ping group min and max"
      (newICMPProxy_preflight_pingGroup.2.1 (.ok ("999 59999".toList)) 0
        (.ok ()) "Group ID is not between ping group min and max" (by decide))

/-! ## Tunnel subcommand helpers (`src/cmd/cloudflared/tunnel/subcommand_context.go`) -/

/-- `connection.Credentials` (`src/connection/rpc.go` lines 306–311); the
tunnel UUID is modelled as an opaque `Nat` (the zero UUID is 0). -/
structure Credentials where
  AccountTag : String
  TunnelSecret : List Nat
  TunnelID : Nat
  TunnelName : String
deriving Repr, DecidableEq

/-- Errors surfaced by `findCredentials`. -/
inductive CredFindError where
  | invalidJSON (path : String) (cause : String)
  | readError (cause : String)
deriving Repr, DecidableEq

/-- `findCredentials` (`src/cmd/cloudflared/tunnel/subcommand_context.go`
lines 263–279).  When the TUNNEL_CRED_CONTENTS option is a nonempty string
it is unmarshalled (the `unmarshal` parameter models `json.Unmarshal`,
returning the partially-filled record plus an optional error, wrapped as
`errInvalidJSONCredential`); otherwise the credentials file is read (the
`readResult` parameter models `readTunnelCredentials`).  In every case the
returned record's `TunnelID` is overwritten with the `tunnelID` argument
before returning, alongside whatever error occurred. -/
def findCredentials (credContents : String)
    (unmarshal : String → Credentials × Option String)
    (readResult : Credentials × Option CredFindError)
    (tunnelID : Nat) : Credentials × Option CredFindError :=
  let r :=
    if credContents ≠ "" then
      let p := unmarshal credContents
      (p.1, p.2.map (CredFindError.invalidJSON "TUNNEL_CRED_CONTENTS"))
    else
      readResult
  ({ r.1 with TunnelID := tunnelID }, r.2)

/-- C9: for every tunnel ID argument, every credential-contents option,
every unmarshal behaviour and every file-read outcome — including all the
error cases — the credentials record returned by `findCredentials` carries
exactly the tunnel ID argument as its `TunnelID`. -/
theorem findCredentials_tunnelID_override (credContents : String)
    (unmarshal : String → Credentials × Option String)
    (readResult : Credentials × Option CredFindError) (tunnelID : Nat) :
    (findCredentials credContents unmarshal readResult tunnelID).1.TunnelID
      = tunnelID := by
  unfold findCredentials
  by_cases h : credContents ≠ "" <;> simp [h]

/-- `uuid.UUID` values are modelled as opaque `Nat`s; `uuid.Nil` is 0.  The
`parse` parameter models `uuid.Parse`, the `nameToID` parameter the Go map
lookup. `lookupBoth` is the per-input resolution of the loop body of
`convertNamesToUuids`: try the UUID parse first, then the name table. -/
def lookupBoth (parse nameToID : String → Option Nat) (input : String) :
    Option Nat :=
  match parse input with
  | some id => some id
  | none => nameToID input

/-- The loop of `convertNamesToUuids`
(`src/cmd/cloudflared/tunnel/subcommand_context.go` lines 410–418):
produces the positional ID list (zero UUID at unresolved positions, as in
the Go slice) and the bad inputs in input order. -/
def convertLoop (parse nameToID : String → Option Nat) :
    List String → List Nat × List String
  | [] => ([], [])
  | input :: rest =>
    let p := convertLoop parse nameToID rest
    match lookupBoth parse nameToID input with
    | some id => (id :: p.1, p.2)
    | none => (0 :: p.1, input :: p.2)

/-- The error message built at lines 420–421 of
`src/cmd/cloudflared/tunnel/subcommand_context.go`. -/
def convertNamesToUuidsMsg (badInputs : List String) : String :=
  "Please specify either the ID or name of a tunnel. The following inputs were neither: "
    ++ String.intercalate ", " badInputs

/-- `convertNamesToUuids`
(`src/cmd/cloudflared/tunnel/subcommand_context.go` lines 407–424): resolve
every input via UUID parse or the name table; if any input resolves to
neither, fail with the message naming all of them; otherwise return the
resolved IDs. -/
def convertNamesToUuids (parse nameToID : String → Option Nat)
    (inputs : List String) : Except String (List Nat) :=
  let p := convertLoop parse nameToID inputs
  match p.2 with
  | [] => .ok p.1
  | _ => .error (convertNamesToUuidsMsg p.2)

theorem convertLoop_eq (parse nameToID : String → Option Nat)
    (inputs : List String) :
    convertLoop parse nameToID inputs
      = (inputs.map (fun i => (lookupBoth parse nameToID i).getD 0),
         inputs.filter (fun i => (lookupBoth parse nameToID i).isNone)) := by
  induction inputs with
  | nil => rfl
  | cons input rest ih =>
    simp only [convertLoop, ih, List.map_cons, List.filter_cons]
    cases h : lookupBoth parse nameToID input <;> simp [h]

/-- C10: `convertNamesToUuids` succeeds if and only if every input either
parses as a UUID or is a key of the name table; on success it returns the
list of the same length as the inputs whose i-th element is the resolution
of the i-th input; on failure its error is the message naming exactly the
inputs that resolve to neither, in input order. -/
theorem convertNamesToUuids_spec (parse nameToID : String → Option Nat)
    (inputs : List String) :
    ((∃ ids, convertNamesToUuids parse nameToID inputs = .ok ids) ↔
      ∀ i ∈ inputs, (lookupBoth parse nameToID i).isSome) ∧
    (∀ ids, convertNamesToUuids parse nameToID inputs = .ok ids →
      ids.length = inputs.length ∧
      ids = inputs.map (fun i => (lookupBoth parse nameToID i).getD 0)) ∧
    (∀ e, convertNamesToUuids parse nameToID inputs = .error e →
      e = convertNamesToUuidsMsg
        (inputs.filter (fun i => (lookupBoth parse nameToID i).isNone))) := by
  have hloop := convertLoop_eq parse nameToID inputs
  have hfilter :
      (inputs.filter (fun i => (lookupBoth parse nameToID i).isNone)) = []
        ↔ ∀ i ∈ inputs, (lookupBoth parse nameToID i).isSome := by
    rw [List.filter_eq_nil_iff]
    constructor
    · intro h i hi
      have := h i hi
      simpa [Option.isNone_iff_eq_none, ← Option.ne_none_iff_isSome] using this
    · intro h i hi
      have := h i hi
      simp only [Option.isNone_iff_eq_none, decide_eq_true_eq]
      rw [← Option.ne_none_iff_isSome] at this
      exact this
  refine ⟨?_, ?_, ?_⟩
  · constructor
    · rintro ⟨ids, hids⟩
      rw [← hfilter]
      unfold convertNamesToUuids at hids
      rw [hloop] at hids
      by_cases hf :
          (inputs.filter (fun i => (lookupBoth parse nameToID i).isNone)) = []
      · exact hf
      · exfalso
        rcases hne : inputs.filter (fun i => (lookupBoth parse nameToID i).isNone)
          with _ | ⟨b, bs⟩
        · exact hf hne
        · rw [hne] at hids
          simp at hids
    · intro h
      refine ⟨inputs.map (fun i => (lookupBoth parse nameToID i).getD 0), ?_⟩
      unfold convertNamesToUuids
      rw [hloop, hfilter.mpr h]
  · intro ids hids
    unfold convertNamesToUuids at hids
    rw [hloop] at hids
    rcases hne : inputs.filter (fun i => (lookupBoth parse nameToID i).isNone)
      with _ | ⟨b, bs⟩
    · rw [hne] at hids
      simp only [Except.ok.injEq] at hids
      subst hids
      exact ⟨by simp, rfl⟩
    · rw [hne] at hids
      simp at hids
  · intro e he
    unfold convertNamesToUuids at he
    rw [hloop] at he
    rcases hne : inputs.filter (fun i => (lookupBoth parse nameToID i).isNone)
      with _ | ⟨b, bs⟩
    · rw [hne] at he
      simp at he
    · rw [hne] at he
      simp only [Except.error.injEq] at he
      exact he.symm

/-- Concrete instance of `convertNamesToUuids_spec`: with a parser accepting
only "11", a name table mapping only "alpha" to 7, the inputs
["11", "alpha"] resolve to [11, 7], and ["11", "nope"] fails with the
message naming exactly "nope". -/
theorem convertNamesToUuids_spec_witness :
    let parse : String → Option Nat := fun s => if s = "11" then some 11 else none
    let nameToID : String → Option Nat :=
      fun s => if s = "alpha" then some 7 else none
    convertNamesToUuids parse nameToID ["11", "alpha"] = .ok [11, 7] ∧
    (∀ e, convertNamesToUuids parse nameToID ["11", "nope"] = .error e →
      e = convertNamesToUuidsMsg ["nope"]) := by
  intro parse nameToID
  constructor
  · have h := ((convertNamesToUuids_spec parse nameToID ["11", "alpha"]).1).mpr
      (by intro i hi; fin_cases hi <;> rfl)
    rcases h with ⟨ids, hids⟩
    have := ((convertNamesToUuids_spec parse nameToID ["11", "alpha"]).2.1)
      ids hids
    rw [hids, this.2]
    rfl
  · intro e he
    have := ((convertNamesToUuids_spec parse nameToID ["11", "nope"]).2.2) e he
    rw [this]
    rfl
